import Mathlib

/-
Verification of the ragscope query-evaluation pipeline (src/app) against its
natural-language specification.  The Python pipeline is shallowly embedded:
external adapters (vector store, generation chain, judge model, MLflow
recorder clock) are inputs in an environment record, and the recorder calls
made during one invocation are collected as an explicit event trace.
-/

namespace RagScope

/-- Recorder events emitted against the MLflow tracking service during one
invocation.  `openRun rid` models `mlflow.start_run` (both the initial
creation in `handle_query` and each later `start_run(run_id=rid)` reopening),
`closeRun` models `mlflow.end_run` and the exit of a `with mlflow.start_run`
block; the other constructors model `mlflow.set_tag`, `mlflow.log_param`,
`mlflow.log_metric` and `mlflow.log_text`. -/
inductive RunEvent where
  | openRun (runId : String)
  | closeRun
  | setTag (key value : String)
  | logParam (key value : String)
  | logMetric (key : String) (value : ℚ)
  | logText (text name : String)
deriving DecidableEq, Repr

/-- Default generation model identifier (`app/config.py`). -/
def OLLAMA_MODEL : String := "llama3.2"

/-- Default judge model identifier (`app/config.py`). -/
def OLLAMA_JUDGE_MODEL : String := "mistral"

/-- Faithfulness judge prompt template of `app/prompts.py`, with the
`format` substitution of `app/evaluate.py` applied. -/
def FAITHFULNESS_PROMPT (context question answer : String) : String :=
  "You are evaluating an AI answer. Rate how well the answer is supported by the provided context.\n\nContext: " ++ context ++ "\n\nQuestion: " ++ question ++ "\n\nAnswer: " ++ answer ++ "\n\nOutput only a single number between 0.0 and 1.0. Example: 0.85\nScore:"

/-- Answer-relevance judge prompt template of `app/prompts.py`. -/
def ANSWER_RELEVANCE_PROMPT (question answer : String) : String :=
  "You are evaluating an AI answer. Rate how well the answer addresses the question asked.\n\nQuestion: " ++ question ++ "\n\nAnswer: " ++ answer ++ "\n\nOutput only a single number between 0.0 and 1.0. Example: 0.85\nScore:"

/-- Context-relevance judge prompt template of `app/prompts.py`. -/
def CONTEXT_RELEVANCE_PROMPT (question context : String) : String :=
  "You are evaluating retrieved context. Rate how relevant the retrieved context is to answering the question.\n\nQuestion: " ++ question ++ "\n\nContext: " ++ context ++ "\n\nOutput only a single number between 0.0 and 1.0. Example: 0.85\nScore:"

/-- Python `str.strip()`: drop whitespace from both ends. -/
def pyStrip (cs : List Char) : List Char :=
  ((cs.dropWhile Char.isWhitespace).reverse.dropWhile Char.isWhitespace).reverse

/-- Leftmost match of the regex `(\d+\.?\d*)` of `app/evaluate.py`
(`_parse_score`): scan for the first digit, take the maximal digit run, then
an optional dot followed by a maximal (possibly empty) digit run.  Returns
the integer-part digits and the fractional-part digits. -/
def firstNumber : List Char → Option (List Char × List Char)
  | [] => none
  | c :: cs =>
    if c.isDigit then
      let ds := c :: cs.takeWhile Char.isDigit
      match cs.dropWhile Char.isDigit with
      | '.' :: rest => some (ds, rest.takeWhile Char.isDigit)
      | _ => some (ds, [])
    else firstNumber cs

/-- Numeric value of one decimal digit. -/
def digitVal (c : Char) : ℕ := c.toNat - Char.toNat '0'

/-- Value of a digit string read in base 10. -/
def digitsToNat (ds : List Char) : ℕ := ds.foldl (fun a c => 10 * a + digitVal c) 0

/-- Value denoted by integer-part digits `ds` and fractional digits `fs`,
as Python `float(...)` reads the matched text (modelled exactly over `ℚ`). -/
def numberValue (ds fs : List Char) : ℚ :=
  (digitsToNat ds : ℚ) + (digitsToNat fs : ℚ) / (10 : ℚ) ^ fs.length

/-- Embedding of `_parse_score` in `app/evaluate.py`: search the stripped
text for the first decimal number; if one is found and lies in
`[0.0, 1.0]` it is the score, otherwise the sentinel `-1.0`. -/
def parse_score (text : String) : ℚ :=
  match firstNumber (pyStrip text.data) with
  | none => -1
  | some (ds, fs) =>
    let value := numberValue ds fs
    if 0 ≤ value ∧ value ≤ 1 then value else -1

/-- Value part of the leftmost regex match on the stripped text, when any. -/
def firstNumberValue (text : String) : Option ℚ :=
  (firstNumber (pyStrip text.data)).map fun p => numberValue p.1 p.2

/-- Outcome of one judge-adapter call folded through the per-metric
`try`/`except` of `run_judge_evaluations`: a raised exception degrades to
the sentinel `-1.0`. -/
def scoreOf : Except String String → ℚ
  | .ok response => parse_score response
  | .error _ => -1

/-- Body of one iteration of the metric loop in `run_judge_evaluations`
(`app/evaluate.py`): invoke the judge on the prompt, parse, tag a parse
warning when the score is the sentinel, catch any adapter exception as the
sentinel plus the same tag, then log the metric.  Returns the score and the
recorder events of that iteration. -/
def metricEvents (metricName : String) (resp : Except String String) : ℚ × List RunEvent :=
  match resp with
  | .ok response =>
    let score := parse_score response
    if score = -1 then
      (score, [RunEvent.setTag (metricName ++ "_parse_warning") "true",
               RunEvent.logMetric metricName score])
    else
      (score, [RunEvent.logMetric metricName score])
  | .error _ =>
    (-1, [RunEvent.setTag (metricName ++ "_parse_warning") "true",
          RunEvent.logMetric metricName (-1)])

/-- Judge model adapter oracle: the raw text the judge returns for a given
prompt, or the exception message when the adapter invocation raises. -/
structure JudgeEnv where
  judge : String → Except String String

/-- Embedding of `run_judge_evaluations` (`app/evaluate.py`): build the
three metric prompts, reopen the run, score the metrics in dict order
inside per-metric exception handling, and log each score.  Returns the
score mapping (in insertion order) and the emitted recorder events. -/
def run_judge_evaluations (env : JudgeEnv) (question answer context runId : String) :
    List (String × ℚ) × List RunEvent :=
  let m1 := metricEvents "faithfulness_score" (env.judge (FAITHFULNESS_PROMPT context question answer))
  let m2 := metricEvents "answer_relevance_score" (env.judge (ANSWER_RELEVANCE_PROMPT question answer))
  let m3 := metricEvents "context_relevance_score" (env.judge (CONTEXT_RELEVANCE_PROMPT question context))
  ([("faithfulness_score", m1.1),
    ("answer_relevance_score", m2.1),
    ("context_relevance_score", m3.1)],
   RunEvent.openRun runId :: (m1.2 ++ m2.2 ++ m3.2 ++ [RunEvent.closeRun]))

/-- Validated query request (`app/models.py`, `QueryRequest`). -/
structure QueryRequest where
  question : String
  top_k : Int
deriving DecidableEq, Repr

/-- Response shape of `app/models.py` (`QueryResponse`). -/
structure QueryResponse where
  answer : String
  sources : List String
  query_id : String
deriving DecidableEq, Repr

/-- Environment of one `handle_query` invocation (`app/query.py`): the
identifiers minted at the start, the outcomes of the external calls, the
judge oracle, and the wall-clock durations of the three stages between the
two `time.monotonic()` readings (run open plus immediate close at lines
53 to 56; vector-store resolution, count and chain construction at lines
63 to 82; `qa_chain.invoke`, that is retrieval plus generation, at line 84). -/
structure QueryEnv where
  runId : String
  queryId : String
  resolveResult : Except String Unit
  countResult : Except String Nat
  chainResult : Except String (String × List String)
  judge : String → Except String String
  dOpenRun : ℚ
  dSetup : ℚ
  dChain : ℚ

/-- Collection count as `handle_query` sees it: an exception from
`vectorstore._collection.count()` is swallowed and treated as 0. -/
def effectiveCount (env : QueryEnv) : ℕ :=
  match env.countResult with
  | .ok n => n
  | .error _ => 0

/-- Outcome surfaced to the HTTP caller. -/
inductive QueryOutcome where
  | ok (resp : QueryResponse)
  | httpError (status : ℕ) (detail : String)
deriving DecidableEq, Repr

/-- Observable result of one `handle_query` invocation: caller outcome,
recorder event trace, whether the retrieval-generation chain invocation was
reached, the `(question, answer, context)` triple passed to judge scoring
when it ran, and the `latency_ms` value when line 96 was reached. -/
structure QueryResult where
  outcome : QueryOutcome
  trace : List RunEvent
  generationAttempted : Bool
  judgeArgs : Option (String × String × String)
  latency_ms : Option ℚ
deriving DecidableEq, Repr

/-- Recorder events of the recording block at lines 98 to 111 of
`app/query.py`, reopening the run by id and closing it at block exit. -/
def recordingEvents (env : QueryEnv) (req : QueryRequest) (errorOccurred : Bool)
    (answer : String) (sources : List String) (latency : ℚ) : List RunEvent :=
  [RunEvent.openRun env.runId,
   RunEvent.setTag "query_id" env.queryId,
   RunEvent.setTag "generation_model" OLLAMA_MODEL,
   RunEvent.setTag "judge_model" OLLAMA_JUDGE_MODEL] ++
  (if errorOccurred then [RunEvent.setTag "error" "true"] else []) ++
  [RunEvent.logParam "question" req.question,
   RunEvent.logParam "top_k" (toString req.top_k),
   RunEvent.logParam "model_name" OLLAMA_MODEL,
   RunEvent.logParam "query_id" env.queryId,
   RunEvent.logMetric "latency_ms" latency,
   RunEvent.logMetric "num_chunks_retrieved" (sources.length : ℚ),
   RunEvent.logMetric "answer_length_chars" (answer.length : ℚ),
   RunEvent.logText answer "answer.txt",
   RunEvent.closeRun]

/-- Code of `handle_query` from line 96 on: compute `latency_ms`, run the
recording block, run judge scoring when no error occurred and at least one
source chunk was retrieved, then raise 500 or return the response. -/
def afterTry (env : QueryEnv) (req : QueryRequest) (errorOccurred : Bool)
    (answer : String) (sources : List String) (elapsed : ℚ)
    (genCalled : Bool) : QueryResult :=
  let latency := elapsed * 1000
  let recTrace := recordingEvents env req errorOccurred answer sources latency
  let context := String.intercalate "\n\n" sources
  let judgeRuns := !errorOccurred && !sources.isEmpty
  let judgeTrace :=
    if judgeRuns then
      (run_judge_evaluations ⟨env.judge⟩ req.question answer context env.runId).2
    else []
  { outcome :=
      if errorOccurred then QueryOutcome.httpError 500 answer
      else QueryOutcome.ok ⟨answer, sources, env.queryId⟩,
    trace := [RunEvent.openRun env.runId, RunEvent.closeRun] ++ recTrace ++ judgeTrace,
    generationAttempted := genCalled,
    judgeArgs := if judgeRuns then some (req.question, answer, context) else none,
    latency_ms := some latency }

/-- Embedding of `handle_query` (`app/query.py`): open and immediately
close a fresh run (lines 53 to 56), then run the `try` block: a raised
`_get_vectorstore` exception takes the generic error path; a zero (or
unreadable) collection count raises the 404 `HTTPException`, which the
`except HTTPException: raise` clause re-raises before the recording block;
a chain exception takes the generic error path; otherwise answer and source
texts are extracted and control falls through to the code after the `try`. -/
def handle_query (env : QueryEnv) (req : QueryRequest) : QueryResult :=
  match env.resolveResult with
  | .error msg =>
    afterTry env req true ("Error: " ++ msg) [] (env.dOpenRun + env.dSetup) false
  | .ok _ =>
    if effectiveCount env = 0 then
      { outcome := QueryOutcome.httpError 404 "No documents found. Please ingest documents first.",
        trace := [RunEvent.openRun env.runId, RunEvent.closeRun],
        generationAttempted := false,
        judgeArgs := none,
        latency_ms := none }
    else
      match env.chainResult with
      | .error msg =>
        afterTry env req true ("Error: " ++ msg) []
          (env.dOpenRun + env.dSetup + env.dChain) true
      | .ok (answer, sources) =>
        afterTry env req false answer sources
          (env.dOpenRun + env.dSetup + env.dChain) true

/-- Spec-side latency: the elapsed wall-clock time from just before
retrieval to just after generation.  In the code retrieval and generation
both happen inside the single `qa_chain.invoke` call, whose duration the
environment gives as `dChain` (in the same time unit as the other stage
durations, converted to milliseconds here). -/
def specLatency (env : QueryEnv) : ℚ := env.dChain * 1000

/-- Spec-side context builder: the chunk texts joined with a blank line
between chunks, preserving retrieval order. -/
def specJoin : List String → String
  | [] => ""
  | [t] => t
  | t :: ts => t ++ "\n\n" ++ specJoin ts

/-- Single-quote character, used inside error-message strings. -/
def sq : String := String.singleton (Char.ofNat 39)

/-- Extensions accepted by ingestion (`app/ingest.py`, `ALLOWED_EXTENSIONS`). -/
def ALLOWED_EXTENSIONS : List String := [".pdf", ".txt"]

/-- Split a character list on slashes (the separator splitting that
`pathlib.PurePosixPath` performs on a path string). -/
def splitSlash : List Char → List (List Char)
  | [] => [[]]
  | c :: cs =>
    if c = '/' then [] :: splitSlash cs
    else
      match splitSlash cs with
      | [] => [[c]]
      | g :: gs => (c :: g) :: gs

/-- Final path component as `pathlib.PurePosixPath(...).name` computes it:
split on slashes, drop empty and single-dot components, take the last. -/
def pathName (s : String) : String :=
  String.mk ((((splitSlash s.data).filter
    (fun g => !(g == []) && !(g == ['.']))).getLast?).getD [])

/-- Python `str.lower()` (ASCII case folding, which covers file
extensions). -/
def pyLower (s : String) : String := String.mk (s.data.map Char.toLower)

/-- Extension of the final path component as `pathlib.Path(...).suffix`
computes it: the segment from the last dot of the name, empty when the name
has no dot, when the only dot is the leading character, or when the dot is
the final character. -/
def pathSuffix (s : String) : String :=
  let name := (pathName s).data
  if name.contains '.' then
    let extRev := name.reverse.takeWhile (fun c => c ≠ '.')
    let i := name.length - extRev.length - 1
    if 0 < i ∧ extRev ≠ [] then String.mk ('.' :: extRev.reverse) else ""
  else ""

/-- Response shape of `app/models.py` (`IngestResponse`). -/
structure IngestResponse where
  status : String
  chunks_stored : ℕ
  filename : String
deriving DecidableEq, Repr

/-- Outcome of one ingestion request as surfaced to the HTTP caller. -/
inductive IngestOutcome where
  | ok (resp : IngestResponse)
  | httpError (status : ℕ) (detail : String)
deriving DecidableEq, Repr

/-- Environment of one `ingest_document` invocation (`app/ingest.py`): the
outcome of reading and loading the uploaded file, the outcome of reaching
the Chroma collection, and the chunk texts the splitter produces. -/
structure IngestEnv where
  readResult : Except String Unit
  chromaResult : Except String Unit
  chunkTexts : List String

/-- Observable result of one `ingest_document` invocation: caller outcome,
whether the uploaded bytes were read, whether chunks were written to the
vector store, and the experiment-recorder events (ingestion never touches
the recorder, so on every path this list is empty). -/
structure IngestResult where
  outcome : IngestOutcome
  fileRead : Bool
  stored : Bool
  runEvents : List RunEvent
deriving DecidableEq, Repr

/-- Embedding of `ingest_document` (`app/ingest.py`): lower-case the suffix
of the uploaded filename and reject anything outside `ALLOWED_EXTENSIONS`
with a 400 before the file is read; then read and load the file, reach the
Chroma collection (failures there surface as 503), split, embed and store
the chunks. -/
def ingest_document (env : IngestEnv) (filename : String) : IngestResult :=
  let suffix := pyLower (pathSuffix filename)
  if suffix ∉ ALLOWED_EXTENSIONS then
    { outcome := IngestOutcome.httpError 400
        ("Unsupported file type " ++ sq ++ suffix ++ sq ++ ". Only .pdf and .txt are accepted."),
      fileRead := false, stored := false, runEvents := [] }
  else
    match env.readResult with
    | .error msg =>
      { outcome := IngestOutcome.httpError 500 msg,
        fileRead := true, stored := false, runEvents := [] }
    | .ok _ =>
      match env.chromaResult with
      | .error msg =>
        { outcome := IngestOutcome.httpError 503 ("ChromaDB unreachable: " ++ msg),
          fileRead := true, stored := false, runEvents := [] }
      | .ok _ =>
        { outcome := IngestOutcome.ok ⟨"ok", env.chunkTexts.length, filename⟩,
          fileRead := true, stored := true, runEvents := [] }

/-- Incoming JSON body of `POST /query` before validation: either field may
be absent. -/
structure RawQueryRequest where
  question : Option String
  top_k : Option Int
deriving DecidableEq, Repr

/-- Request validation of `app/models.py` (`QueryRequest`, pydantic):
`question` is required with `min_length=1`; `top_k` defaults to 4 and must
satisfy `ge=1`. -/
def validateQueryRequest (raw : RawQueryRequest) : Except String QueryRequest :=
  match raw.question with
  | none => .error "field required: question"
  | some q =>
    if q.length < 1 then .error "question: string should have at least 1 character"
    else
      match raw.top_k with
      | none => .ok ⟨q, 4⟩
      | some k =>
        if k < 1 then .error "top_k: input should be greater than or equal to 1"
        else .ok ⟨q, k⟩

/-- Depth check over a recorder trace: `openRun` is legal only at depth 0,
`closeRun` only at depth 1, and the trace must end at depth 0.  A trace
satisfying this keeps at most one run open at a time and leaves the run
closed at exit. -/
def scanOk : Int → List RunEvent → Bool
  | d, [] => d == 0
  | d, RunEvent.openRun _ :: tr => (d == 0) && scanOk (d + 1) tr
  | d, RunEvent.closeRun :: tr => (d == 1) && scanOk (d - 1) tr
  | d, RunEvent.setTag _ _ :: tr => scanOk d tr
  | d, RunEvent.logParam _ _ :: tr => scanOk d tr
  | d, RunEvent.logMetric _ _ :: tr => scanOk d tr
  | d, RunEvent.logText _ _ :: tr => scanOk d tr

/-- Event is a run opening. -/
def isOpenEvent : RunEvent → Bool
  | RunEvent.openRun _ => true
  | _ => false

/-- Event is a run closing. -/
def isCloseEvent : RunEvent → Bool
  | RunEvent.closeRun => true
  | _ => false

/-- Event is a tag write. -/
def isTagEvent : RunEvent → Bool
  | RunEvent.setTag _ _ => true
  | _ => false

/-- Number of run openings in a trace. -/
def openCount (tr : List RunEvent) : ℕ := (tr.filter isOpenEvent).length

/-- Number of run closings in a trace. -/
def closeCount (tr : List RunEvent) : ℕ := (tr.filter isCloseEvent).length

/-- Number of tag writes in a trace. -/
def tagCount (tr : List RunEvent) : ℕ := (tr.filter isTagEvent).length

/-- Number of openings of a run other than `rid`. -/
def foreignOpenCount (rid : String) (tr : List RunEvent) : ℕ :=
  (tr.filter fun e =>
    match e with
    | RunEvent.openRun r => !(r == rid)
    | _ => false).length

/-- Concrete request used by the witness and counterexample instances. -/
def reqW : QueryRequest := { question := "what is x", top_k := 4 }

/-- Concrete successful environment whose judge adapter raises on every
call; used for the C1 counterexample. -/
def envC1 : QueryEnv :=
  { runId := "run-1", queryId := "qid-1",
    resolveResult := .ok (), countResult := .ok 3,
    chainResult := .ok ("ans", ["A", "B"]),
    judge := fun _ => .error "judge down",
    dOpenRun := 0, dSetup := 0, dChain := 0 }

/-- Concrete environment with an empty collection; used for C2. -/
def envC2 : QueryEnv :=
  { runId := "run-2", queryId := "qid-2",
    resolveResult := .ok (), countResult := .ok 0,
    chainResult := .ok ("ans", ["A"]),
    judge := fun _ => .error "judge down",
    dOpenRun := 0, dSetup := 0, dChain := 0 }

/-- Concrete environment whose retrieval-generation chain raises; used
for C5. -/
def envC5 : QueryEnv :=
  { runId := "run-5", queryId := "qid-5",
    resolveResult := .ok (), countResult := .ok 2,
    chainResult := .error "boom",
    judge := fun _ => .error "judge down",
    dOpenRun := 0, dSetup := 0, dChain := 0 }

/-- Concrete environment where generation succeeds with no source chunks
returned; used for the C6 counterexample. -/
def envC6 : QueryEnv :=
  { runId := "run-6", queryId := "qid-6",
    resolveResult := .ok (), countResult := .ok 1,
    chainResult := .ok ("ans", []),
    judge := fun _ => .error "judge down",
    dOpenRun := 0, dSetup := 0, dChain := 0 }

/-- Concrete environment where generation succeeds with source chunks;
used for the C6 witness. -/
def envC6b : QueryEnv :=
  { runId := "run-6b", queryId := "qid-6b",
    resolveResult := .ok (), countResult := .ok 1,
    chainResult := .ok ("ans", ["A", "B"]),
    judge := fun _ => .error "judge down",
    dOpenRun := 0, dSetup := 0, dChain := 0 }

/-- Concrete environment in which the Run-opening stage takes 5 time
units while retrieval plus generation takes 1; used for the C9
counterexample. -/
def envC9 : QueryEnv :=
  { runId := "run-9", queryId := "qid-9",
    resolveResult := .ok (), countResult := .ok 2,
    chainResult := .ok ("ans", ["A"]),
    judge := fun _ => .error "judge down",
    dOpenRun := 5, dSetup := 0, dChain := 1 }

/-- Concrete environment with nonzero stage durations; used for the C9
witness. -/
def envC9b : QueryEnv :=
  { runId := "run-9b", queryId := "qid-9b",
    resolveResult := .ok (), countResult := .ok 2,
    chainResult := .ok ("ans", ["A"]),
    judge := fun _ => .error "judge down",
    dOpenRun := 2, dSetup := 3, dChain := 4 }

/-- Concrete environment whose vector-store resolution raises, with
nonzero stage durations; used for the C9 witness. -/
def envC9c : QueryEnv :=
  { runId := "run-9c", queryId := "qid-9c",
    resolveResult := .error "chroma down", countResult := .ok 2,
    chainResult := .ok ("ans", ["A"]),
    judge := fun _ => .error "judge down",
    dOpenRun := 1, dSetup := 2, dChain := 7 }

/-- Concrete empty-collection environment; used for the C9 witness. -/
def envC9d : QueryEnv :=
  { runId := "run-9d", queryId := "qid-9d",
    resolveResult := .ok (), countResult := .ok 0,
    chainResult := .ok ("ans", ["A"]),
    judge := fun _ => .error "judge down",
    dOpenRun := 0, dSetup := 0, dChain := 0 }

/-- Concrete environment whose retrieval-generation chain raises, with
nonzero stage durations; used for the C9 witness. -/
def envC9e : QueryEnv :=
  { runId := "run-9e", queryId := "qid-9e",
    resolveResult := .ok (), countResult := .ok 2,
    chainResult := .error "boom",
    judge := fun _ => .error "judge down",
    dOpenRun := 1, dSetup := 1, dChain := 1 }

/-- Concrete ingestion environment; used for the C8 witness. -/
def envC8 : IngestEnv :=
  { readResult := .ok (), chromaResult := .ok (), chunkTexts := ["chunk"] }

theorem scanOk_append {xs : List RunEvent} {d : Int} {ys : List RunEvent}
    (hx : scanOk d xs = true) (hy : scanOk 0 ys = true) :
    scanOk d (xs ++ ys) = true := by
  induction xs generalizing d with
  | nil =>
    simp only [scanOk, beq_iff_eq] at hx
    subst hx
    simpa using hy
  | cons e tl ih =>
    cases e with
    | openRun r =>
      simp only [scanOk, Bool.and_eq_true, beq_iff_eq] at hx
      simp only [List.cons_append, scanOk, Bool.and_eq_true, beq_iff_eq]
      exact ⟨hx.1, ih hx.2⟩
    | closeRun =>
      simp only [scanOk, Bool.and_eq_true, beq_iff_eq] at hx
      simp only [List.cons_append, scanOk, Bool.and_eq_true, beq_iff_eq]
      exact ⟨hx.1, ih hx.2⟩
    | setTag k v => simpa only [List.cons_append, scanOk] using ih hx
    | logParam k v => simpa only [List.cons_append, scanOk] using ih hx
    | logMetric k v => simpa only [List.cons_append, scanOk] using ih hx
    | logText t n => simpa only [List.cons_append, scanOk] using ih hx

theorem openCount_append (xs ys : List RunEvent) :
    openCount (xs ++ ys) = openCount xs + openCount ys := by
  simp [openCount, List.filter_append]

theorem closeCount_append (xs ys : List RunEvent) :
    closeCount (xs ++ ys) = closeCount xs + closeCount ys := by
  simp [closeCount, List.filter_append]

theorem foreignOpenCount_append (rid : String) (xs ys : List RunEvent) :
    foreignOpenCount rid (xs ++ ys) = foreignOpenCount rid xs + foreignOpenCount rid ys := by
  simp [foreignOpenCount, List.filter_append]

theorem metricEvents_openCount (name : String) (resp : Except String String) :
    openCount (metricEvents name resp).2 = 0 := by
  cases resp <;> simp only [metricEvents] <;> try split
  all_goals simp [openCount, isOpenEvent]

theorem metricEvents_closeCount (name : String) (resp : Except String String) :
    closeCount (metricEvents name resp).2 = 0 := by
  cases resp <;> simp only [metricEvents] <;> try split
  all_goals simp [closeCount, isCloseEvent]

theorem metricEvents_foreignOpenCount (rid name : String) (resp : Except String String) :
    foreignOpenCount rid (metricEvents name resp).2 = 0 := by
  cases resp <;> simp only [metricEvents] <;> try split
  all_goals simp [foreignOpenCount]

theorem metricEvents_scanOk (name : String) (resp : Except String String)
    (d : Int) (rest : List RunEvent) :
    scanOk d ((metricEvents name resp).2 ++ rest) = scanOk d rest := by
  cases resp <;> simp only [metricEvents] <;> try split
  all_goals simp [scanOk]

theorem openCount_cons (e : RunEvent) (l : List RunEvent) :
    openCount (e :: l) = openCount [e] + openCount l := by
  cases e <;> simp [openCount, isOpenEvent, List.filter_cons] <;> omega

theorem closeCount_cons (e : RunEvent) (l : List RunEvent) :
    closeCount (e :: l) = closeCount [e] + closeCount l := by
  cases e <;> simp [closeCount, isCloseEvent, List.filter_cons] <;> omega

theorem foreignOpenCount_cons (rid : String) (e : RunEvent) (l : List RunEvent) :
    foreignOpenCount rid (e :: l) = foreignOpenCount rid [e] + foreignOpenCount rid l := by
  cases e with
  | openRun r =>
    by_cases h : r = rid <;> simp [foreignOpenCount, List.filter_cons, h] <;> omega
  | closeRun => simp [foreignOpenCount, List.filter_cons]
  | setTag k v => simp [foreignOpenCount, List.filter_cons]
  | logParam k v => simp [foreignOpenCount, List.filter_cons]
  | logMetric k v => simp [foreignOpenCount, List.filter_cons]
  | logText t n => simp [foreignOpenCount, List.filter_cons]

theorem judgeTrace_openCount (e : JudgeEnv) (q a c rid : String) :
    openCount (run_judge_evaluations e q a c rid).2 = 1 := by
  simp only [run_judge_evaluations]
  rw [openCount_cons, openCount_append, openCount_append, openCount_append,
    metricEvents_openCount, metricEvents_openCount, metricEvents_openCount]
  simp [openCount, isOpenEvent]

theorem judgeTrace_closeCount (e : JudgeEnv) (q a c rid : String) :
    closeCount (run_judge_evaluations e q a c rid).2 = 1 := by
  simp only [run_judge_evaluations]
  rw [closeCount_cons, closeCount_append, closeCount_append, closeCount_append,
    metricEvents_closeCount, metricEvents_closeCount, metricEvents_closeCount]
  simp [closeCount, isCloseEvent]

theorem judgeTrace_foreignOpenCount (e : JudgeEnv) (q a c rid : String) :
    foreignOpenCount rid (run_judge_evaluations e q a c rid).2 = 0 := by
  simp only [run_judge_evaluations]
  rw [foreignOpenCount_cons, foreignOpenCount_append, foreignOpenCount_append,
    foreignOpenCount_append, metricEvents_foreignOpenCount,
    metricEvents_foreignOpenCount, metricEvents_foreignOpenCount]
  simp [foreignOpenCount]

theorem judgeTrace_scanOk (e : JudgeEnv) (q a c rid : String) :
    scanOk 0 (run_judge_evaluations e q a c rid).2 = true := by
  simp only [run_judge_evaluations, scanOk, List.append_assoc]
  rw [metricEvents_scanOk, metricEvents_scanOk, metricEvents_scanOk]
  simp [scanOk]

theorem recordingEvents_openCount (env : QueryEnv) (req : QueryRequest)
    (errB : Bool) (ans : String) (srcs : List String) (lat : ℚ) :
    openCount (recordingEvents env req errB ans srcs lat) = 1 := by
  cases errB <;> simp [recordingEvents, openCount, isOpenEvent]

theorem recordingEvents_closeCount (env : QueryEnv) (req : QueryRequest)
    (errB : Bool) (ans : String) (srcs : List String) (lat : ℚ) :
    closeCount (recordingEvents env req errB ans srcs lat) = 1 := by
  cases errB <;> simp [recordingEvents, closeCount, isCloseEvent]

theorem recordingEvents_foreignOpenCount (env : QueryEnv) (req : QueryRequest)
    (errB : Bool) (ans : String) (srcs : List String) (lat : ℚ) :
    foreignOpenCount env.runId (recordingEvents env req errB ans srcs lat) = 0 := by
  cases errB <;> simp [recordingEvents, foreignOpenCount]

theorem recordingEvents_scanOk (env : QueryEnv) (req : QueryRequest)
    (errB : Bool) (ans : String) (srcs : List String) (lat : ℚ) :
    scanOk 0 (recordingEvents env req errB ans srcs lat) = true := by
  cases errB <;> simp [recordingEvents, scanOk]

theorem afterTry_trace_eq (env : QueryEnv) (req : QueryRequest) (errB : Bool)
    (ans : String) (srcs : List String) (elapsed : ℚ) (gc : Bool) :
    (afterTry env req errB ans srcs elapsed gc).trace =
      [RunEvent.openRun env.runId, RunEvent.closeRun] ++
        (recordingEvents env req errB ans srcs (elapsed * 1000) ++
          (if (!errB && !srcs.isEmpty) = true then
            (run_judge_evaluations ⟨env.judge⟩ req.question ans
              (String.intercalate "\n\n" srcs) env.runId).2
          else [])) := rfl

theorem afterTry_outcome_eq (env : QueryEnv) (req : QueryRequest) (errB : Bool)
    (ans : String) (srcs : List String) (elapsed : ℚ) (gc : Bool) :
    (afterTry env req errB ans srcs elapsed gc).outcome =
      if errB = true then QueryOutcome.httpError 500 ans
      else QueryOutcome.ok ⟨ans, srcs, env.queryId⟩ := rfl

theorem afterTry_judgeArgs_eq (env : QueryEnv) (req : QueryRequest) (errB : Bool)
    (ans : String) (srcs : List String) (elapsed : ℚ) (gc : Bool) :
    (afterTry env req errB ans srcs elapsed gc).judgeArgs =
      if (!errB && !srcs.isEmpty) = true then
        some (req.question, ans, String.intercalate "\n\n" srcs)
      else none := rfl

theorem afterTry_latency_eq (env : QueryEnv) (req : QueryRequest) (errB : Bool)
    (ans : String) (srcs : List String) (elapsed : ℚ) (gc : Bool) :
    (afterTry env req errB ans srcs elapsed gc).latency_ms = some (elapsed * 1000) := rfl

theorem afterTry_generation_eq (env : QueryEnv) (req : QueryRequest) (errB : Bool)
    (ans : String) (srcs : List String) (elapsed : ℚ) (gc : Bool) :
    (afterTry env req errB ans srcs elapsed gc).generationAttempted = gc := rfl

theorem handle_query_resolve_error {env : QueryEnv} (req : QueryRequest) {msg : String}
    (h : env.resolveResult = .error msg) :
    handle_query env req =
      afterTry env req true ("Error: " ++ msg) [] (env.dOpenRun + env.dSetup) false := by
  unfold handle_query
  rw [h]

theorem handle_query_404 {env : QueryEnv} (req : QueryRequest) {u : Unit}
    (hr : env.resolveResult = .ok u) (hc : effectiveCount env = 0) :
    handle_query env req =
      { outcome := QueryOutcome.httpError 404 "No documents found. Please ingest documents first.",
        trace := [RunEvent.openRun env.runId, RunEvent.closeRun],
        generationAttempted := false,
        judgeArgs := none,
        latency_ms := none } := by
  unfold handle_query
  rw [hr]
  simp [hc]

theorem handle_query_chain_error {env : QueryEnv} (req : QueryRequest) {u : Unit} {msg : String}
    (hr : env.resolveResult = .ok u) (hc : ¬effectiveCount env = 0)
    (hch : env.chainResult = .error msg) :
    handle_query env req =
      afterTry env req true ("Error: " ++ msg) []
        (env.dOpenRun + env.dSetup + env.dChain) true := by
  unfold handle_query
  rw [hr]
  simp [hc, hch]

theorem handle_query_chain_ok {env : QueryEnv} (req : QueryRequest) {u : Unit}
    {ans : String} {srcs : List String}
    (hr : env.resolveResult = .ok u) (hc : ¬effectiveCount env = 0)
    (hch : env.chainResult = .ok (ans, srcs)) :
    handle_query env req =
      afterTry env req false ans srcs (env.dOpenRun + env.dSetup + env.dChain) true := by
  unfold handle_query
  rw [hr]
  simp [hc, hch]

theorem afterTry_scanOk (env : QueryEnv) (req : QueryRequest) (errB : Bool)
    (ans : String) (srcs : List String) (elapsed : ℚ) (gc : Bool) :
    scanOk 0 (afterTry env req errB ans srcs elapsed gc).trace = true := by
  rw [afterTry_trace_eq]
  have hA : scanOk 0 ([RunEvent.openRun env.runId, RunEvent.closeRun] : List RunEvent) = true := by
    simp [scanOk]
  have hB := recordingEvents_scanOk env req errB ans srcs (elapsed * 1000)
  by_cases h : (!errB && !srcs.isEmpty) = true
  · rw [if_pos h]
    exact scanOk_append hA (scanOk_append hB (judgeTrace_scanOk _ _ _ _ _))
  · rw [if_neg h]
    exact scanOk_append hA (scanOk_append hB (by simp [scanOk]))

theorem afterTry_openCount (env : QueryEnv) (req : QueryRequest) (errB : Bool)
    (ans : String) (srcs : List String) (elapsed : ℚ) (gc : Bool) :
    openCount (afterTry env req errB ans srcs elapsed gc).trace =
      if (!errB && !srcs.isEmpty) = true then 3 else 2 := by
  rw [afterTry_trace_eq]
  by_cases h : (!errB && !srcs.isEmpty) = true <;>
    simp only [h, if_pos, if_neg, if_true, if_false, openCount_append,
      recordingEvents_openCount, judgeTrace_openCount] <;>
    simp [openCount, isOpenEvent]

theorem afterTry_closeCount (env : QueryEnv) (req : QueryRequest) (errB : Bool)
    (ans : String) (srcs : List String) (elapsed : ℚ) (gc : Bool) :
    closeCount (afterTry env req errB ans srcs elapsed gc).trace =
      if (!errB && !srcs.isEmpty) = true then 3 else 2 := by
  rw [afterTry_trace_eq]
  by_cases h : (!errB && !srcs.isEmpty) = true <;>
    simp only [h, if_pos, if_neg, if_true, if_false, closeCount_append,
      recordingEvents_closeCount, judgeTrace_closeCount] <;>
    simp [closeCount, isCloseEvent]

theorem afterTry_foreignOpenCount (env : QueryEnv) (req : QueryRequest) (errB : Bool)
    (ans : String) (srcs : List String) (elapsed : ℚ) (gc : Bool) :
    foreignOpenCount env.runId (afterTry env req errB ans srcs elapsed gc).trace = 0 := by
  rw [afterTry_trace_eq]
  by_cases h : (!errB && !srcs.isEmpty) = true <;>
    simp only [h, if_pos, if_neg, if_true, if_false, foreignOpenCount_append,
      recordingEvents_foreignOpenCount, judgeTrace_foreignOpenCount] <;>
    simp [foreignOpenCount]

/-- Claim C1 counterexample: on a fully successful invocation the single
Run is opened (and closed) three times — initial creation, the recording
block, and judge logging — so it does not transition Open → Closed exactly
once and is reopened after closing. -/
theorem C1_counterexample :
    openCount (handle_query envC1 reqW).trace = 3 ∧
    closeCount (handle_query envC1 reqW).trace = 3 ∧
    ¬openCount (handle_query envC1 reqW).trace = 1 :=
  ⟨by decide, by decide, by decide⟩

/-- Claim C1 (amended): every query invocation produces exactly one Run —
every opening in the trace names the single run id minted at the start —
and the Run is closed on every exit path including exceptions (the trace
is well nested, never holds two opens at once, and ends with the run
closed); however the Run does not transition Open → Closed exactly once:
after its initial close it is reopened for the recording block and once
more for judge logging, so it is opened between one and three times. -/
theorem C1_run_lifecycle (env : QueryEnv) (req : QueryRequest) :
    scanOk 0 (handle_query env req).trace = true ∧
    closeCount (handle_query env req).trace = openCount (handle_query env req).trace ∧
    1 ≤ openCount (handle_query env req).trace ∧
    openCount (handle_query env req).trace ≤ 3 ∧
    foreignOpenCount env.runId (handle_query env req).trace = 0 := by
  cases hres : env.resolveResult with
  | error msg =>
    rw [handle_query_resolve_error req hres]
    refine ⟨afterTry_scanOk _ _ _ _ _ _ _, ?_, ?_, ?_, afterTry_foreignOpenCount _ _ _ _ _ _ _⟩ <;>
      rw [afterTry_openCount] <;> try rw [afterTry_closeCount]
    all_goals simp
  | ok u =>
    by_cases hc : effectiveCount env = 0
    · rw [handle_query_404 req hres hc]
      refine ⟨by simp [scanOk], ?_, ?_, ?_, ?_⟩ <;>
        simp [openCount, closeCount, foreignOpenCount, isOpenEvent, isCloseEvent]
    · cases hch : env.chainResult with
      | error msg =>
        rw [handle_query_chain_error req hres hc hch]
        refine ⟨afterTry_scanOk _ _ _ _ _ _ _, ?_, ?_, ?_, afterTry_foreignOpenCount _ _ _ _ _ _ _⟩ <;>
          rw [afterTry_openCount] <;> try rw [afterTry_closeCount]
        all_goals simp
      | ok p =>
        obtain ⟨ans, srcs⟩ := p
        rw [handle_query_chain_ok req hres hc hch]
        refine ⟨afterTry_scanOk _ _ _ _ _ _ _, ?_, ?_, ?_, afterTry_foreignOpenCount _ _ _ _ _ _ _⟩ <;>
          rw [afterTry_openCount] <;> try rw [afterTry_closeCount]
        all_goals split <;> simp

/-- Claim C2 counterexample: against a collection of size 0 the pipeline
does fail with the NotFound 404 before any generation call, but the Run is
not tagged with an empty-collection condition — the trace holds no tag at
all (only the initial open and close), contradicting the tagging part of
the claim. -/
theorem C2_counterexample :
    (handle_query envC2 reqW).outcome =
      QueryOutcome.httpError 404 "No documents found. Please ingest documents first." ∧
    (handle_query envC2 reqW).generationAttempted = false ∧
    tagCount (handle_query envC2 reqW).trace = 0 :=
  ⟨by decide, by decide, by decide⟩

/-- Claim C2 (amended): for every query invocation against a collection of
size 0 (or whose count call raises, which the code folds into 0), the
pipeline fails with the NotFound 404 before any generation call; the Run
opened at the start of the invocation is already closed, but the recording
block is skipped by the re-raise, so the Run carries no tag — in
particular no empty-collection tag — and no param or metric, and judge
scoring does not run. -/
theorem C2_empty_collection (env : QueryEnv) (req : QueryRequest) (u : Unit)
    (hr : env.resolveResult = .ok u) (hc : effectiveCount env = 0) :
    (handle_query env req).outcome =
      QueryOutcome.httpError 404 "No documents found. Please ingest documents first." ∧
    (handle_query env req).generationAttempted = false ∧
    (handle_query env req).trace = [RunEvent.openRun env.runId, RunEvent.closeRun] ∧
    (handle_query env req).judgeArgs = none := by
  rw [handle_query_404 req hr hc]
  exact ⟨rfl, rfl, rfl, rfl⟩

/-- Witness for C2 at the concrete empty-collection environment. -/
theorem C2_empty_collection_witness :
    (handle_query envC2 reqW).outcome =
      QueryOutcome.httpError 404 "No documents found. Please ingest documents first." ∧
    (handle_query envC2 reqW).generationAttempted = false ∧
    (handle_query envC2 reqW).trace = [RunEvent.openRun "run-2", RunEvent.closeRun] ∧
    (handle_query envC2 reqW).judgeArgs = none :=
  C2_empty_collection envC2 reqW () rfl (by decide)

theorem metricEvents_fst (name : String) (resp : Except String String) :
    (metricEvents name resp).1 = scoreOf resp := by
  cases resp <;> simp only [metricEvents, scoreOf] <;> try split
  all_goals rfl

theorem metricEvents_tag_iff (name : String) (resp : Except String String) :
    RunEvent.setTag (name ++ "_parse_warning") "true" ∈ (metricEvents name resp).2 ↔
      scoreOf resp = -1 := by
  cases resp with
  | ok r =>
    simp only [metricEvents, scoreOf]
    split
    · simp_all
    · simp_all
  | error e => simp [metricEvents, scoreOf]

theorem metricEvents_tag_key {name k v : String} {resp : Except String String}
    (h : RunEvent.setTag k v ∈ (metricEvents name resp).2) :
    k = name ++ "_parse_warning" := by
  cases resp with
  | ok r =>
    simp only [metricEvents] at h
    split at h <;> simp_all
  | error e => simp_all [metricEvents]

theorem judgeTrace_tag_iff (j : String → Except String String) (q a c rid : String)
    (name : String) (resp : Except String String)
    (hname : name = "faithfulness_score" ∧ resp = j (FAITHFULNESS_PROMPT c q a) ∨
      name = "answer_relevance_score" ∧ resp = j (ANSWER_RELEVANCE_PROMPT q a) ∨
      name = "context_relevance_score" ∧ resp = j (CONTEXT_RELEVANCE_PROMPT q c)) :
    RunEvent.setTag (name ++ "_parse_warning") "true" ∈ (run_judge_evaluations ⟨j⟩ q a c rid).2 ↔
      scoreOf resp = -1 := by
  have key1 := @metricEvents_tag_key "faithfulness_score"
  have key2 := @metricEvents_tag_key "answer_relevance_score"
  have key3 := @metricEvents_tag_key "context_relevance_score"
  simp only [run_judge_evaluations, List.mem_cons, List.mem_append, or_assoc,
    List.mem_singleton]
  rcases hname with ⟨hn, hr⟩ | ⟨hn, hr⟩ | ⟨hn, hr⟩ <;> subst hn <;> subst hr
  · constructor
    · rintro (h | h | h | h | h)
      · exact absurd h (by simp)
      · exact (metricEvents_tag_iff _ _).1 h
      · exact absurd (key2 h) (by decide)
      · exact absurd (key3 h) (by decide)
      · exact absurd h (by simp)
    · intro h
      exact Or.inr (Or.inl ((metricEvents_tag_iff _ _).2 h))
  · constructor
    · rintro (h | h | h | h | h)
      · exact absurd h (by simp)
      · exact absurd (key1 h) (by decide)
      · exact (metricEvents_tag_iff _ _).1 h
      · exact absurd (key3 h) (by decide)
      · exact absurd h (by simp)
    · intro h
      exact Or.inr (Or.inr (Or.inl ((metricEvents_tag_iff _ _).2 h)))
  · constructor
    · rintro (h | h | h | h | h)
      · exact absurd h (by simp)
      · exact absurd (key1 h) (by decide)
      · exact absurd (key2 h) (by decide)
      · exact (metricEvents_tag_iff _ _).1 h
      · exact absurd h (by simp)
    · intro h
      exact Or.inr (Or.inr (Or.inr (Or.inl ((metricEvents_tag_iff _ _).2 h))))

/-- Claim C3: judge scoring attempts the three metrics independently —
each metric score is a function of that metric's own adapter response
only, and with an adapter exception folded to the sentinel `-1.0`; an
exception or unparseable response yields the parse-warning tag for exactly
that metric; the returned mapping always lists exactly the three metric
keys; and judge failures never reach the caller: the pipeline outcome does
not depend on the judge oracle at all. -/
theorem C3_judge_isolation (j : String → Except String String) (q a c rid : String) :
    (run_judge_evaluations ⟨j⟩ q a c rid).1 =
      [("faithfulness_score", scoreOf (j (FAITHFULNESS_PROMPT c q a))),
       ("answer_relevance_score", scoreOf (j (ANSWER_RELEVANCE_PROMPT q a))),
       ("context_relevance_score", scoreOf (j (CONTEXT_RELEVANCE_PROMPT q c)))] ∧
    (∀ msg : String, scoreOf (Except.error msg) = -1) ∧
    (RunEvent.setTag "faithfulness_score_parse_warning" "true" ∈
        (run_judge_evaluations ⟨j⟩ q a c rid).2 ↔
      scoreOf (j (FAITHFULNESS_PROMPT c q a)) = -1) ∧
    (RunEvent.setTag "answer_relevance_score_parse_warning" "true" ∈
        (run_judge_evaluations ⟨j⟩ q a c rid).2 ↔
      scoreOf (j (ANSWER_RELEVANCE_PROMPT q a)) = -1) ∧
    (RunEvent.setTag "context_relevance_score_parse_warning" "true" ∈
        (run_judge_evaluations ⟨j⟩ q a c rid).2 ↔
      scoreOf (j (CONTEXT_RELEVANCE_PROMPT q c)) = -1) ∧
    (run_judge_evaluations ⟨j⟩ q a c rid).1.map Prod.fst =
      ["faithfulness_score", "answer_relevance_score", "context_relevance_score"] ∧
    (∀ env : QueryEnv, ∀ req : QueryRequest, ∀ j2 : String → Except String String,
      (handle_query env req).outcome = (handle_query { env with judge := j2 } req).outcome) := by
  refine ⟨?_, fun msg => rfl, ?_, ?_, ?_, ?_, ?_⟩
  · simp [run_judge_evaluations, metricEvents_fst]
  · exact judgeTrace_tag_iff j q a c rid _ _ (Or.inl ⟨rfl, rfl⟩)
  · exact judgeTrace_tag_iff j q a c rid _ _ (Or.inr (Or.inl ⟨rfl, rfl⟩))
  · exact judgeTrace_tag_iff j q a c rid _ _ (Or.inr (Or.inr ⟨rfl, rfl⟩))
  · simp [run_judge_evaluations]
  · intro env req j2
    obtain ⟨rid, qid, res, cnt, ch, jd, d1, d2, d3⟩ := env
    cases res with
    | error msg => rfl
    | ok u =>
      cases cnt with
      | error msg => rfl
      | ok n =>
        by_cases hn : n = 0
        · subst hn
          rfl
        · cases ch with
          | error msg =>
            simp only [handle_query, effectiveCount, if_neg hn]
            rfl
          | ok p =>
            obtain ⟨ans, srcs⟩ := p
            simp only [handle_query, effectiveCount, if_neg hn]
            rfl

theorem firstNumber_eq_none_iff (cs : List Char) :
    firstNumber cs = none ↔ ∀ c ∈ cs, c.isDigit = false := by
  induction cs with
  | nil => simp [firstNumber]
  | cons c cs ih =>
    by_cases h : c.isDigit
    · simp only [firstNumber, if_pos h]
      constructor
      · intro hm
        exact absurd hm (by split <;> simp)
      · intro hall
        exact absurd (hall c (List.mem_cons_self c cs)) (by simp [h])
    · simp only [firstNumber, if_neg h, ih]
      constructor
      · intro hall d hd
        rcases List.mem_cons.1 hd with rfl | hd
        · simpa using h
        · exact hall d hd
      · intro hall d hd
        exact hall d (List.mem_cons_of_mem c hd)

theorem numberValue_digits_085 : numberValue ['0'] ['8', '5'] = 17 / 20 := by
  have h1 : digitsToNat ['0'] = 0 := by decide
  have h2 : digitsToNat ['8', '5'] = 85 := by decide
  simp only [numberValue, h1, h2, List.length_cons, List.length_nil]
  norm_num

theorem numberValue_digits_15 : numberValue ['1'] ['5'] = 3 / 2 := by
  have h1 : digitsToNat ['1'] = 1 := by decide
  have h2 : digitsToNat ['5'] = 5 := by decide
  simp only [numberValue, h1, h2, List.length_cons, List.length_nil]
  norm_num

/-- Claim C4: score parsing extracts the first decimal number occurring in
the (stripped) judge response text — `firstNumber` returns no number
exactly when the text holds no digit; when the first number exists and
lies in `[0.0, 1.0]` inclusive the parsed score equals that number; when
it is out of range or absent the score is the sentinel `-1.0`; and inside
the metric loop the parse-warning tag is recorded exactly when the score
is the sentinel. -/
theorem C4_parse_first_number (t : String) :
    (firstNumber (pyStrip t.data) = none → parse_score t = -1) ∧
    (∀ ds fs : List Char, firstNumber (pyStrip t.data) = some (ds, fs) →
      ((0 ≤ numberValue ds fs ∧ numberValue ds fs ≤ 1) →
        parse_score t = numberValue ds fs) ∧
      (¬(0 ≤ numberValue ds fs ∧ numberValue ds fs ≤ 1) → parse_score t = -1)) ∧
    (parse_score t = -1 ∨
      (0 ≤ parse_score t ∧ parse_score t ≤ 1 ∧
        firstNumberValue t = some (parse_score t))) ∧
    (firstNumber (pyStrip t.data) = none ↔ ∀ c ∈ pyStrip t.data, c.isDigit = false) ∧
    (∀ name r : String,
      RunEvent.setTag (name ++ "_parse_warning") "true" ∈
          (metricEvents name (Except.ok r)).2 ↔
        parse_score r = -1) := by
  refine ⟨?_, ?_, ?_, firstNumber_eq_none_iff _, ?_⟩
  · intro h
    simp [parse_score, h]
  · intro ds fs h
    constructor
    · intro hin
      simp only [parse_score, h]
      rw [if_pos hin]
    · intro hout
      simp only [parse_score, h]
      rw [if_neg hout]
  · cases hf : firstNumber (pyStrip t.data) with
    | none =>
      left
      simp [parse_score, hf]
    | some p =>
      obtain ⟨ds, fs⟩ := p
      by_cases hin : 0 ≤ numberValue ds fs ∧ numberValue ds fs ≤ 1
      · right
        have hv : parse_score t = numberValue ds fs := by
          simp only [parse_score, hf]
          rw [if_pos hin]
        rw [hv]
        exact ⟨hin.1, hin.2, by simp [firstNumberValue, hf]⟩
      · left
        simp only [parse_score, hf]
        rw [if_neg hin]
  · intro name r
    simpa [scoreOf] using metricEvents_tag_iff name (Except.ok r)

/-- Witness for C4: the in-range response of the spec example parses to
its number, the out-of-range example and the digit-free example parse to
the sentinel. -/
theorem C4_parse_first_number_witness :
    parse_score "Score: 0.85" = 17 / 20 ∧
    parse_score "1.5" = -1 ∧
    parse_score ("I think it" ++ sq ++ "s good") = -1 := by
  refine ⟨?_, ?_, ?_⟩
  · have h := ((C4_parse_first_number "Score: 0.85").2.1 ['0'] ['8', '5'] (by decide)).1
    rw [numberValue_digits_085] at h
    exact h (by norm_num)
  · have h := ((C4_parse_first_number "1.5").2.1 ['1'] ['5'] (by decide)).2
    rw [numberValue_digits_15] at h
    exact h (by norm_num)
  · exact (C4_parse_first_number _).1 (by decide)

/-- Claim C5: for every exception raised during retrieval or generation
other than the fast-fail NotFound, the pipeline captures the exception
message as the Answer text (in the answer-shaped form `Error: <message>`),
marks the invocation as errored, skips judge evaluation, records the
errored Run (error tag, answer artifact) and closes it, and re-raises the
failure to the caller as the Internal 500 error carrying the captured
answer text. -/
theorem C5_generic_exception (env : QueryEnv) (req : QueryRequest) (u : Unit) (msg : String)
    (hr : env.resolveResult = .ok u) (hc : ¬effectiveCount env = 0)
    (hch : env.chainResult = .error msg) :
    (handle_query env req).outcome = QueryOutcome.httpError 500 ("Error: " ++ msg) ∧
    (handle_query env req).judgeArgs = none ∧
    RunEvent.setTag "error" "true" ∈ (handle_query env req).trace ∧
    RunEvent.logText ("Error: " ++ msg) "answer.txt" ∈ (handle_query env req).trace ∧
    scanOk 0 (handle_query env req).trace = true := by
  rw [handle_query_chain_error req hr hc hch]
  refine ⟨rfl, rfl, ?_, ?_, afterTry_scanOk _ _ _ _ _ _ _⟩
  · rw [afterTry_trace_eq]
    simp [recordingEvents]
  · rw [afterTry_trace_eq]
    simp [recordingEvents]

/-- Witness for C5 at the concrete chain-failure environment. -/
theorem C5_generic_exception_witness :
    (handle_query envC5 reqW).outcome = QueryOutcome.httpError 500 ("Error: " ++ "boom") ∧
    (handle_query envC5 reqW).judgeArgs = none ∧
    RunEvent.setTag "error" "true" ∈ (handle_query envC5 reqW).trace ∧
    RunEvent.logText ("Error: " ++ "boom") "answer.txt" ∈ (handle_query envC5 reqW).trace ∧
    scanOk 0 (handle_query envC5 reqW).trace = true :=
  C5_generic_exception envC5 reqW () "boom" rfl (by decide) rfl

/-- Claim C6 counterexample: an invocation in which retrieval and
generation complete without error but the retriever returns no source
documents skips judge scoring, so judge scoring does not run on every
error-free invocation. -/
theorem C6_counterexample :
    (handle_query envC6 reqW).outcome =
      QueryOutcome.ok ⟨"ans", [], "qid-6"⟩ ∧
    (handle_query envC6 reqW).judgeArgs = none :=
  ⟨by decide, by decide⟩

/-- Claim C6 (amended): judge scoring runs exactly when retrieval and
generation complete without error and at least one source chunk was
retrieved, and then it receives the triple (question, Answer, Context);
it never runs when an error occurred, and also not when the source list
is empty. -/
theorem C6_judge_condition :
    (∀ env : QueryEnv, ∀ req : QueryRequest, ∀ u : Unit, ∀ ans : String, ∀ srcs : List String,
      env.resolveResult = .ok u → ¬effectiveCount env = 0 →
      env.chainResult = .ok (ans, srcs) →
      (srcs ≠ [] → (handle_query env req).judgeArgs =
        some (req.question, ans, String.intercalate "\n\n" srcs)) ∧
      (srcs = [] → (handle_query env req).judgeArgs = none)) ∧
    (∀ env : QueryEnv, ∀ req : QueryRequest, ∀ u : Unit, ∀ msg : String,
      env.resolveResult = .ok u → ¬effectiveCount env = 0 →
      env.chainResult = .error msg → (handle_query env req).judgeArgs = none) ∧
    (∀ env : QueryEnv, ∀ req : QueryRequest, ∀ msg : String,
      env.resolveResult = .error msg → (handle_query env req).judgeArgs = none) := by
  refine ⟨?_, ?_, ?_⟩
  · intro env req u ans srcs hr hc hch
    rw [handle_query_chain_ok req hr hc hch]
    constructor
    · intro hne
      rw [afterTry_judgeArgs_eq]
      cases srcs with
      | nil => exact absurd rfl hne
      | cons s ss => simp
    · intro he
      subst he
      rfl
  · intro env req u msg hr hc hch
    rw [handle_query_chain_error req hr hc hch]
    rfl
  · intro env req msg hr
    rw [handle_query_resolve_error req hr]
    rfl

/-- Witness for C6: with two retrieved chunks judge scoring receives the
triple, and at the empty-source environment it is skipped. -/
theorem C6_judge_condition_witness :
    (handle_query envC6b reqW).judgeArgs =
      some (reqW.question, "ans", String.intercalate "\n\n" ["A", "B"]) ∧
    (handle_query envC6 reqW).judgeArgs = none :=
  ⟨(C6_judge_condition.1 envC6b reqW () "ans" ["A", "B"] rfl (by decide) rfl).1 (by decide),
   (C6_judge_condition.1 envC6 reqW () "ans" [] rfl (by decide) rfl).2 rfl⟩

theorem specJoin_append_head (x y : String) (as : List String) :
    specJoin ((x ++ y) :: as) = x ++ specJoin (y :: as) := by
  cases as with
  | nil => rfl
  | cons b bs => simp [specJoin, String.append_assoc]

theorem intercalate_go_eq (as : List String) : ∀ acc : String,
    String.intercalate.go acc "\n\n" as = specJoin (acc :: as) := by
  induction as with
  | nil => intro acc; rfl
  | cons a as ih =>
    intro acc
    show String.intercalate.go (acc ++ "\n\n" ++ a) "\n\n" as = specJoin (acc :: a :: as)
    rw [ih (acc ++ "\n\n" ++ a), String.append_assoc, specJoin_append_head,
      specJoin_append_head]
    simp [specJoin, String.append_assoc]

/-- Claim C7: the Context the pipeline builds — `String.intercalate`
applied to the retrieved chunk texts, as in the source — equals the chunk
texts joined with a blank-line separator in retrieval order (the
spec-side recursive join), in particular `"A\n\nB"` for chunks
`["A", "B"]`; and the judge receives exactly that joined Context whenever
it runs. -/
theorem C7_context_join :
    (∀ srcs : List String, String.intercalate "\n\n" srcs = specJoin srcs) ∧
    String.intercalate "\n\n" ["A", "B"] = "A\n\nB" ∧
    (∀ env : QueryEnv, ∀ req : QueryRequest, ∀ errB : Bool, ∀ ans : String,
      ∀ srcs : List String, ∀ elapsed : ℚ, ∀ gc : Bool,
      (afterTry env req errB ans srcs elapsed gc).judgeArgs =
        if (!errB && !srcs.isEmpty) = true then
          some (req.question, ans, specJoin srcs)
        else none) := by
  have hall : ∀ srcs : List String, String.intercalate "\n\n" srcs = specJoin srcs := by
    intro srcs
    cases srcs with
    | nil => rfl
    | cons t ts => exact intercalate_go_eq ts t
  refine ⟨hall, rfl, ?_⟩
  intro env req errB ans srcs elapsed gc
  rw [afterTry_judgeArgs_eq, hall]

/-- Claim C8: every uploaded file whose (lower-cased) extension is neither
`.pdf` nor `.txt` is rejected with the InvalidInput 400 error before any
processing of the document — the file bytes are never read, nothing is
stored — and no Run is opened (ingestion emits no recorder event at
all). -/
theorem C8_reject_extension (env : IngestEnv) (filename : String)
    (h : pyLower (pathSuffix filename) ∉ ALLOWED_EXTENSIONS) :
    (ingest_document env filename).outcome = IngestOutcome.httpError 400
      ("Unsupported file type " ++ sq ++ pyLower (pathSuffix filename) ++ sq ++
        ". Only .pdf and .txt are accepted.") ∧
    (ingest_document env filename).fileRead = false ∧
    (ingest_document env filename).stored = false ∧
    (ingest_document env filename).runEvents = [] ∧
    openCount (ingest_document env filename).runEvents = 0 := by
  unfold ingest_document
  rw [if_pos h]
  exact ⟨rfl, rfl, rfl, rfl, rfl⟩

/-- Witness for C8 at a concrete `.exe` upload. -/
theorem C8_reject_extension_witness :
    (ingest_document envC8 "malware.exe").outcome = IngestOutcome.httpError 400
      ("Unsupported file type " ++ sq ++ pyLower (pathSuffix "malware.exe") ++ sq ++
        ". Only .pdf and .txt are accepted.") ∧
    (ingest_document envC8 "malware.exe").fileRead = false ∧
    (ingest_document envC8 "malware.exe").stored = false ∧
    (ingest_document envC8 "malware.exe").runEvents = [] ∧
    openCount (ingest_document envC8 "malware.exe").runEvents = 0 :=
  C8_reject_extension envC8 "malware.exe" (by decide)

/-- Claim C9 counterexample: with the Run-opening stage taking 5 time
units, setup 0 and retrieval-plus-generation 1, the recorded `latency_ms`
is 6000 while the elapsed time from just before retrieval to just after
generation is 1000 — the code starts its clock at the top of
`handle_query`, before the Run is opened, so the claimed equality fails. -/
theorem C9_counterexample :
    (handle_query envC9 reqW).latency_ms = some 6000 ∧
    specLatency envC9 = 1000 ∧
    (handle_query envC9 reqW).latency_ms ≠ some (specLatency envC9) := by
  have h1 : (handle_query envC9 reqW).latency_ms = some 6000 := by
    norm_num [handle_query, afterTry, effectiveCount, envC9]
  have h2 : specLatency envC9 = 1000 := by
    norm_num [specLatency, envC9]
  refine ⟨h1, h2, ?_⟩
  intro hcontra
  rw [h1, h2] at hcontra
  exact absurd (Option.some.inj hcontra) (by norm_num)

/-- Claim C9 (amended): on every path that reaches the recording block —
successful generation, a generic exception during retrieval or
generation, or a generic exception while resolving the vector store —
`latency_ms` equals 1000 times the elapsed wall-clock time measured from
the start of `handle_query`, a point before the Run is opened and the
vector store resolved, up to just after generation or the generic error
handler; it is non-negative when the stage durations are; on the paths
where the retrieval-generation chain was invoked it is at least the spec
quantity measured from just before retrieval to just after generation;
and on the empty-collection fast-fail path no latency is recorded. -/
theorem C9_latency :
    (∀ env : QueryEnv, ∀ req : QueryRequest, ∀ u : Unit, ∀ ans : String,
      ∀ srcs : List String,
      0 ≤ env.dOpenRun → 0 ≤ env.dSetup → 0 ≤ env.dChain →
      env.resolveResult = .ok u → ¬effectiveCount env = 0 →
      env.chainResult = .ok (ans, srcs) →
      (handle_query env req).latency_ms =
        some ((env.dOpenRun + env.dSetup + env.dChain) * 1000) ∧
      0 ≤ (env.dOpenRun + env.dSetup + env.dChain) * 1000 ∧
      specLatency env ≤ (env.dOpenRun + env.dSetup + env.dChain) * 1000) ∧
    (∀ env : QueryEnv, ∀ req : QueryRequest, ∀ u : Unit, ∀ msg : String,
      0 ≤ env.dOpenRun → 0 ≤ env.dSetup → 0 ≤ env.dChain →
      env.resolveResult = .ok u → ¬effectiveCount env = 0 →
      env.chainResult = .error msg →
      (handle_query env req).latency_ms =
        some ((env.dOpenRun + env.dSetup + env.dChain) * 1000) ∧
      0 ≤ (env.dOpenRun + env.dSetup + env.dChain) * 1000 ∧
      specLatency env ≤ (env.dOpenRun + env.dSetup + env.dChain) * 1000) ∧
    (∀ env : QueryEnv, ∀ req : QueryRequest, ∀ msg : String,
      0 ≤ env.dOpenRun → 0 ≤ env.dSetup →
      env.resolveResult = .error msg →
      (handle_query env req).latency_ms =
        some ((env.dOpenRun + env.dSetup) * 1000) ∧
      0 ≤ (env.dOpenRun + env.dSetup) * 1000) ∧
    (∀ env : QueryEnv, ∀ req : QueryRequest, ∀ u : Unit,
      env.resolveResult = .ok u → effectiveCount env = 0 →
      (handle_query env req).latency_ms = none) := by
  refine ⟨?_, ?_, ?_, ?_⟩
  · intro env req u ans srcs h1 h2 h3 hr hc hch
    rw [handle_query_chain_ok req hr hc hch]
    refine ⟨afterTry_latency_eq _ _ _ _ _ _ _, ?_, ?_⟩
    · apply mul_nonneg (by linarith) (by norm_num)
    · simp only [specLatency]
      apply mul_le_mul_of_nonneg_right (by linarith) (by norm_num)
  · intro env req u msg h1 h2 h3 hr hc hch
    rw [handle_query_chain_error req hr hc hch]
    refine ⟨afterTry_latency_eq _ _ _ _ _ _ _, ?_, ?_⟩
    · apply mul_nonneg (by linarith) (by norm_num)
    · simp only [specLatency]
      apply mul_le_mul_of_nonneg_right (by linarith) (by norm_num)
  · intro env req msg h1 h2 hr
    rw [handle_query_resolve_error req hr]
    refine ⟨afterTry_latency_eq _ _ _ _ _ _ _, ?_⟩
    apply mul_nonneg (by linarith) (by norm_num)
  · intro env req u hr hc
    rw [handle_query_404 req hr hc]

/-- Witness for C9, exercising every branch: the success path with stage
durations 2, 3 and 4, the chain-exception path with durations 1, 1 and 1,
the resolve-exception path with durations 1 and 2, and the
empty-collection path recording no latency. -/
theorem C9_latency_witness :
    ((handle_query envC9b reqW).latency_ms =
      some ((envC9b.dOpenRun + envC9b.dSetup + envC9b.dChain) * 1000) ∧
     0 ≤ (envC9b.dOpenRun + envC9b.dSetup + envC9b.dChain) * 1000 ∧
     specLatency envC9b ≤ (envC9b.dOpenRun + envC9b.dSetup + envC9b.dChain) * 1000) ∧
    ((handle_query envC9e reqW).latency_ms =
      some ((envC9e.dOpenRun + envC9e.dSetup + envC9e.dChain) * 1000) ∧
     0 ≤ (envC9e.dOpenRun + envC9e.dSetup + envC9e.dChain) * 1000 ∧
     specLatency envC9e ≤ (envC9e.dOpenRun + envC9e.dSetup + envC9e.dChain) * 1000) ∧
    ((handle_query envC9c reqW).latency_ms =
      some ((envC9c.dOpenRun + envC9c.dSetup) * 1000) ∧
     0 ≤ (envC9c.dOpenRun + envC9c.dSetup) * 1000) ∧
    (handle_query envC9d reqW).latency_ms = none :=
  ⟨C9_latency.1 envC9b reqW () "ans" ["A"] (by decide) (by decide) (by decide)
      rfl (by decide) rfl,
   C9_latency.2.1 envC9e reqW () "boom" (by decide) (by decide) (by decide)
      rfl (by decide) rfl,
   C9_latency.2.2.1 envC9c reqW "chroma down" (by decide) (by decide) rfl,
   C9_latency.2.2.2 envC9d reqW () rfl (by decide)⟩

/-- Claim C10: request validation always yields `top_k ≥ 1`, and a request
that omits `top_k` is given the default `top_k = 4`; in particular a body
holding only a question validates to that question with `top_k = 4`. -/
theorem C10_default_top_k :
    (∀ raw : RawQueryRequest, ∀ r : QueryRequest,
      validateQueryRequest raw = .ok r → 1 ≤ r.top_k) ∧
    (∀ raw : RawQueryRequest, ∀ r : QueryRequest, raw.top_k = none →
      validateQueryRequest raw = .ok r → r.top_k = 4) ∧
    validateQueryRequest { question := some "hi", top_k := none } =
      .ok { question := "hi", top_k := 4 } := by
  refine ⟨?_, ?_, rfl⟩
  · intro raw r h
    obtain ⟨oq, otk⟩ := raw
    cases oq with
    | none => exact absurd h (by simp [validateQueryRequest])
    | some q =>
      cases otk with
      | none =>
        simp only [validateQueryRequest] at h
        split at h
        · exact absurd h (by simp)
        · cases h
          norm_num
      | some k =>
        simp only [validateQueryRequest] at h
        split at h
        · exact absurd h (by simp)
        · split at h
          · exact absurd h (by simp)
          · cases h
            show 1 ≤ k
            omega
  · intro raw r htk h
    obtain ⟨oq, otk⟩ := raw
    subst htk
    cases oq with
    | none => exact absurd h (by simp [validateQueryRequest])
    | some q =>
      simp only [validateQueryRequest] at h
      split at h
      · exact absurd h (by simp)
      · cases h
        rfl

/-- Witness for C10: the defaulted request validates and satisfies both
conclusions at the concrete input. -/
theorem C10_default_top_k_witness :
    1 ≤ ({ question := "hi", top_k := 4 } : QueryRequest).top_k ∧
    ({ question := "hi", top_k := 4 } : QueryRequest).top_k = 4 :=
  ⟨C10_default_top_k.1 { question := some "hi", top_k := none }
      { question := "hi", top_k := 4 } rfl,
   C10_default_top_k.2.1 { question := some "hi", top_k := none }
      { question := "hi", top_k := 4 } rfl rfl⟩

end RagScope
